import Mathlib

/-!
Shallow embedding of the result-to-metric translation core of
`atlas_exporter` (packages `dns` and `sslcert`), together with proofs of
the testable properties of its specification.

The two translators are modelled as pure functions from a measurement
result and probe metadata to the ordered list of samples they emit on
their output channel.  External parsing libraries (SHA-256, X.509
certificate parsing, float parsing) are consumed by the source as black
boxes; they appear here as function-valued parameters bundled in `Libs`,
and theorems quantify over them.
-/

namespace AtlasExporter

/-- Raw bytes (Go `[]byte`); each entry is one byte value. -/
abbrev Bytes := List Nat

/-- A certificate blob string as seen by `pem.Decode` / `base64.StdEncoding.DecodeString`.
The source only ever observes a blob through these two decoders, tried in
this order, so a blob is classified by which decoder succeeds and with
which DER payload:
* `pemOf der`: `pem.Decode` succeeds and yields `der` (a PEM armored text
  is never also plain base64, its dashes are invalid base64 characters);
* `b64Of der`: `pem.Decode` fails, base64 decoding yields `der`;
* `garbage`: both decoders fail. -/
inductive Blob where
  | pemOf (der : Bytes)
  | b64Of (der : Bytes)
  | garbage
deriving DecidableEq

/-- Result of `pem.Decode` on the blob (`block.Bytes` when a block is found). -/
def pemDecode : Blob → Option Bytes
  | Blob.pemOf der => some der
  | _ => none

/-- Result of `base64.StdEncoding.DecodeString` on the blob. -/
def b64Decode : Blob → Option Bytes
  | Blob.b64Of der => some der
  | _ => none

/-- A parsed X.509 certificate as used by the source: only the issuer
organization list and issuer common name are consulted
(`cert.Issuer.Organization`, `cert.Issuer.CommonName`). -/
structure Certificate where
  issuerOrganization : List String
  issuerCommonName : String
deriving DecidableEq

/-- Black-box library functions the source calls:
`sha256.Sum256`, `x509.ParseCertificate` (`none` models a parse error) and
`strconv.ParseFloat` (`none` models a parse error; Go returns value 0
alongside the error). -/
structure Libs where
  sha256 : Bytes → Bytes
  parseCertificate : Bytes → Option Certificate
  parseFloat : String → Option ℚ

/-- One DNS resource record in the decoded answer section, as the source's
type switch sees it: an `A` record (header name and IPv4 address string),
an `AAAA` record (header name and IPv6 address string), or any other
record kind, which the switch ignores. -/
inductive RR where
  | A (name : String) (ip : String)
  | AAAA (name : String) (ip : String)
  | other
deriving DecidableEq

/-- Decoded DNS message (`*mdns.Msg`); the source reads only `msg.Answer`. -/
structure DnsMsg where
  answer : List RR
deriving DecidableEq

/-- Nested DNS result (`measurementdns.Result`): round-trip time `Rt()` and
the outcome of `UnpackAbuf()`.  `abuf = some msg` models
`err == nil && msg != nil`; `abuf = none` models every other outcome. -/
structure DnsResult where
  rt : ℚ
  abuf : Option DnsMsg
deriving DecidableEq

/-- One DNS sub-result (`measurementdns.Resultset`): destination address,
address family, whether `DnsError()` is non-nil, and the nested result. -/
structure DnsResultset where
  dstAddr : String
  af : Int
  dnsError : Bool
  result : Option DnsResult
deriving DecidableEq

/-- TLS alert info (`SslcertAlert()`): level and description codes. -/
structure SslCertAlert where
  level : Int
  description : Int
deriving DecidableEq

/-- A measurement result (`measurement.Result`), restricted to the fields
the two translators read.  `dnsResultsets` entries are pointers in the
source and may be nil, hence `Option`. -/
structure MeasurementResult where
  dstAddr : String
  af : Int
  rt : ℚ
  dnsResultsets : List (Option DnsResultset)
  dnsResult : Option DnsResult
  cert : List Blob
  ver : String
  sslcertAlert : Option SslCertAlert

/-- Probe metadata (`probe.Probe`), consumed as a ready-made value object:
numeric id, per-address-family ASN accessor, country code, latitude and
longitude strings. -/
structure Probe where
  id : Int
  asnForIPVersion : Int → Int
  countryCode : String
  latitude : String
  longitude : String

/-- The metric a sample belongs to (which `*prometheus.Desc` it was built
with). -/
inductive Metric where
  | dnsSuccess
  | dnsRtt
  | dnsAnswer
  | certSuccess
  | certVersion
  | certRtt
  | certAlertLevel
  | certAlertDescription
deriving DecidableEq

/-- One emitted sample (`prometheus.MustNewConstMetric` call): metric,
gauge value, and the ordered label values. -/
structure Sample where
  metric : Metric
  value : ℚ
  labelValues : List String
deriving DecidableEq

/-- Label names registered for the dns success and rtt metrics. -/
def dnsLabels : List String :=
  ["measurement", "probe", "dst_addr", "asn", "ip_version", "country_code", "lat", "long"]

/-- Label names registered for the dns answer metric. -/
def dnsAnswerLabels : List String :=
  ["measurement", "probe", "resolver", "asn", "ip_version", "country_code", "lat",
   "long", "qname", "rr_type", "answer_ip"]

/-- Label names registered for all sslcert metrics. -/
def certLabels : List String :=
  ["measurement", "probe", "dst_addr", "asn", "ip_version", "country_code", "lat",
   "long", "cert_fingerprint", "cert_issuer"]

/-- The dns translator, holding only its measurement id. -/
structure dnsExporter where
  id : String

/-- The sslcert translator, holding only its measurement id. -/
structure sslCertExporter where
  id : String

/-- The 8 common label values built from a sub-result (`labelValues` local
in the resultset branch of `dnsExporter.Export`). -/
def dnsSubLabelValues (m : dnsExporter) (s : DnsResultset) (p : Probe) : List String :=
  [m.id, toString p.id, s.dstAddr, toString (p.asnForIPVersion s.af), toString s.af,
   p.countryCode, p.latitude, p.longitude]

/-- The 8 common label values built from the top-level result (`labelValues`
local in the single-target branch of `dnsExporter.Export`). -/
def dnsTopLabelValues (m : dnsExporter) (res : MeasurementResult) (p : Probe) : List String :=
  [m.id, toString p.id, res.dstAddr, toString (p.asnForIPVersion res.af), toString res.af,
   p.countryCode, p.latitude, p.longitude]

/-- The samples emitted for one answer record by the type switch in
`dnsExporter.Export`: one answer sample for an A or AAAA record, nothing
for other record kinds.  `dstAddr` and `af` come from the active target
(sub-result or top-level result). -/
def answerSample (m : dnsExporter) (p : Probe) (dstAddr : String) (af : Int) :
    RR → List Sample
  | RR.A name ip =>
      [⟨Metric.dnsAnswer, 1,
        [m.id, toString p.id, dstAddr, toString (p.asnForIPVersion af), toString af,
         p.countryCode, p.latitude, p.longitude, name, "A", ip]⟩]
  | RR.AAAA name ip =>
      [⟨Metric.dnsAnswer, 1,
        [m.id, toString p.id, dstAddr, toString (p.asnForIPVersion af), toString af,
         p.countryCode, p.latitude, p.longitude, name, "AAAA", ip]⟩]
  | RR.other => []

/-- Samples emitted for one non-nil sub-result `s` inside the resultset
loop of `dnsExporter.Export`: success=0 on a DNS error or missing nested
result; otherwise the answer samples of the unpacked payload followed by
success=1 and rtt when `rt > 0`, or success=0 alone otherwise. -/
def subResultSamples (m : dnsExporter) (p : Probe) (s : DnsResultset) : List Sample :=
  let labelValues := dnsSubLabelValues m s p
  if s.dnsError then
    [⟨Metric.dnsSuccess, 0, labelValues⟩]
  else
    match s.result with
    | none => [⟨Metric.dnsSuccess, 0, labelValues⟩]
    | some r =>
      let answers :=
        match r.abuf with
        | some msg => msg.answer.flatMap (answerSample m p s.dstAddr s.af)
        | none => []
      if r.rt > 0 then
        answers ++ [⟨Metric.dnsSuccess, 1, labelValues⟩, ⟨Metric.dnsRtt, r.rt, labelValues⟩]
      else
        answers ++ [⟨Metric.dnsSuccess, 0, labelValues⟩]

/-- One iteration of the resultset loop in `dnsExporter.Export`: a nil
entry is skipped, a non-nil entry contributes its sub-result samples. -/
def processResultset (m : dnsExporter) (p : Probe) : Option DnsResultset → List Sample
  | none => []
  | some s => subResultSamples m p s

/-- `dnsExporter.Export`: the emitted sample sequence.  When the result
carries a non-empty resultset list, each non-nil sub-result is processed
in order (nil entries are skipped); otherwise the result is treated as a
single implicit target using its own `DnsResult`. -/
def dnsExporter.Export (m : dnsExporter) (res : MeasurementResult) (p : Probe) :
    List Sample :=
  if res.dnsResultsets.length > 0 then
    res.dnsResultsets.flatMap (processResultset m p)
  else
    let labelValues := dnsTopLabelValues m res p
    let rtt : ℚ :=
      match res.dnsResult with
      | some r => r.rt
      | none => 0
    let answers :=
      match res.dnsResult with
      | some r =>
        match r.abuf with
        | some msg => msg.answer.flatMap (answerSample m p res.dstAddr res.af)
        | none => []
      | none => []
    if rtt > 0 then
      answers ++ [⟨Metric.dnsSuccess, 1, labelValues⟩, ⟨Metric.dnsRtt, rtt, labelValues⟩]
    else
      answers ++ [⟨Metric.dnsSuccess, 0, labelValues⟩]

/-- One lowercase hexadecimal digit. -/
def hexDigit (n : Nat) : Char :=
  if n < 10 then Char.ofNat (48 + n) else Char.ofNat (97 + (n - 10))

/-- Two lowercase hex digits for one byte. -/
def hexOfByte (b : Nat) : String :=
  String.mk [hexDigit (b / 16 % 16), hexDigit (b % 16)]

/-- `fmt.Sprintf` with a `%x` verb on a byte array: each byte as two
lowercase hex digits, concatenated. -/
def hexOfBytes : Bytes → String
  | [] => ""
  | b :: t => hexOfByte b ++ hexOfBytes t

/-- `fingerprintFromResult`: hash of the first certificate blob.  Empty
chain gives `""`; PEM decode is tried first, then base64; if both fail the
fingerprint is `""`; on success it is the lowercase hex of the 256-bit
hash of the DER bytes. -/
def fingerprintFromResult (L : Libs) (res : MeasurementResult) : String :=
  match res.cert with
  | [] => ""
  | c0 :: _ =>
    match pemDecode c0 with
    | some bytes => hexOfBytes (L.sha256 bytes)
    | none =>
      match b64Decode c0 with
      | some der => hexOfBytes (L.sha256 der)
      | none => ""

/-- The issuer string drawn from one parsed certificate in
`issuerOrgFromResult`: organization first element when the list is
non-empty and that element is non-empty, else the common name when
non-empty, else `"unknown"`. -/
def issuerOfCertificate (cert : Certificate) : String :=
  match cert.issuerOrganization with
  | o0 :: _ =>
    if o0 ≠ "" then o0
    else if cert.issuerCommonName ≠ "" then cert.issuerCommonName else "unknown"
  | [] =>
    if cert.issuerCommonName ≠ "" then cert.issuerCommonName else "unknown"

/-- The decode policy shared by both extractors: try a PEM decode first,
fall back to base64 (`der` assignment in the loop of
`issuerOrgFromResult`). -/
def decodeBlob (raw : Blob) : Option Bytes :=
  match pemDecode raw with
  | some d => some d
  | none => b64Decode raw

/-- The loop body of `issuerOrgFromResult` over the blob list: a blob that
fails both decodes, or whose DER fails `x509.ParseCertificate`, is
skipped (`continue`); the first blob that parses decides the result. -/
def issuerFromBlobs (L : Libs) : List Blob → String
  | [] => "unknown"
  | raw :: rest =>
    match decodeBlob raw with
    | none => issuerFromBlobs L rest
    | some der =>
      match L.parseCertificate der with
      | none => issuerFromBlobs L rest
      | some cert => issuerOfCertificate cert

/-- `issuerOrgFromResult`: `"unknown"` on an empty chain, otherwise scan
the blobs in order. -/
def issuerOrgFromResult (L : Libs) (res : MeasurementResult) : String :=
  issuerFromBlobs L res.cert

/-- The 10 label values built in `sslCertExporter.Export`. -/
def certLabelValues (L : Libs) (m : sslCertExporter) (res : MeasurementResult)
    (probe : Probe) : List String :=
  [m.id, toString probe.id, res.dstAddr, toString (probe.asnForIPVersion res.af),
   toString res.af, probe.countryCode, probe.latitude, probe.longitude,
   fingerprintFromResult L res, issuerOrgFromResult L res]

/-- `sslCertExporter.Export`: version sample (parse failure yields 0),
alert level and description (0 each when alert info is absent), then
success=1 and rtt when `Rt() > 0`, or success=0 alone. -/
def sslCertExporter.Export (L : Libs) (m : sslCertExporter) (res : MeasurementResult)
    (probe : Probe) : List Sample :=
  let labelValues := certLabelValues L m res probe
  let ver : ℚ := (L.parseFloat res.ver).getD 0
  let alertLevel : ℚ :=
    match res.sslcertAlert with
    | some a => (a.level : ℚ)
    | none => 0
  let alertDescription : ℚ :=
    match res.sslcertAlert with
    | some a => (a.description : ℚ)
    | none => 0
  [⟨Metric.certVersion, ver, labelValues⟩,
   ⟨Metric.certAlertLevel, alertLevel, labelValues⟩,
   ⟨Metric.certAlertDescription, alertDescription, labelValues⟩] ++
  (if res.rt > 0 then
    [⟨Metric.certSuccess, 1, labelValues⟩, ⟨Metric.certRtt, res.rt, labelValues⟩]
  else
    [⟨Metric.certSuccess, 0, labelValues⟩])

/-! ### Derived predicates used to state the properties -/

/-- A sample on the dns reachability metrics (success or rtt). -/
def isDnsReach (s : Sample) : Bool :=
  s.metric == Metric.dnsSuccess || s.metric == Metric.dnsRtt

/-- A sample on the sslcert reachability metrics (success or rtt). -/
def isCertReach (s : Sample) : Bool :=
  s.metric == Metric.certSuccess || s.metric == Metric.certRtt

/-- A sample on the dns answer metric. -/
def isDnsAnswer (s : Sample) : Bool :=
  s.metric == Metric.dnsAnswer

/-- An answer record of address type (A or AAAA). -/
def isAddressRR : RR → Bool
  | RR.other => false
  | _ => true

/-- The issuer loop skips this blob: both decodes fail, or the DER bytes
fail certificate parsing. -/
def blobFails (L : Libs) (b : Blob) : Bool :=
  match decodeBlob b with
  | none => true
  | some der => (L.parseCertificate der).isNone

/-- The answer sample the specification prescribes for one answer record
(stated from the spec's words, for comparison with the translator's
output): value 1, the 8 target labels, then queried name, the record-type
tag and the resolved address string; non-address records yield no
sample. -/
def specAnswerSample (mid : String) (p : Probe) (dstAddr : String) (af : Int) :
    RR → Option Sample
  | RR.A name ip =>
      some ⟨Metric.dnsAnswer, 1,
        [mid, toString p.id, dstAddr, toString (p.asnForIPVersion af), toString af,
         p.countryCode, p.latitude, p.longitude, name, "A", ip]⟩
  | RR.AAAA name ip =>
      some ⟨Metric.dnsAnswer, 1,
        [mid, toString p.id, dstAddr, toString (p.asnForIPVersion af), toString af,
         p.countryCode, p.latitude, p.longitude, name, "AAAA", ip]⟩
  | RR.other => none

/-! ### Concrete objects used by witnesses and counterexamples -/

/-- A concrete probe. -/
def exProbe : Probe :=
  ⟨7, fun af => if af = 4 then 100 else 200, "DE", "50.1", "8.6"⟩

/-- A reachable sub-result with one A-record answer. -/
def exSub1 : DnsResultset :=
  ⟨"9.9.9.9", 4, false, some ⟨5, some ⟨[RR.A "example.org." "93.184.216.34"]⟩⟩⟩

/-- An unreachable sub-result carrying a decode error. -/
def exSub2 : DnsResultset :=
  ⟨"8.8.8.8", 4, true, some ⟨3, none⟩⟩

/-- A DNS result with the two sub-results of the spec's scenario. -/
def exScenarioRes : MeasurementResult :=
  ⟨"t", 4, 0, [some exSub1, some exSub2], none, [], "", none⟩

/-- A DNS result whose resultset list is non-empty but all nil. -/
def nilOnlyRes : MeasurementResult :=
  ⟨"1.2.3.4", 4, 0, [none], none, [], "", none⟩

/-- Concrete black boxes: the identity as hash, nothing parses. -/
def exLibs : Libs :=
  ⟨fun d => d, fun _ => none, fun _ => none⟩

/-- Concrete black boxes: constant 32-byte hash, every DER parses to a
certificate with organization `["Org"]` and common name `"CN"`. -/
def exLibsParse : Libs :=
  ⟨fun _ => List.replicate 32 0, fun _ => some ⟨["Org"], "CN"⟩, fun _ => none⟩

/-! ### Helper lemmas -/

/-- Unfold the derived boolean equality on `Metric` to a decidable test. -/
theorem Metric.beq_eq_decide (x y : Metric) : (x == y) = decide (x = y) := rfl

/-- The hex rendering of a non-empty byte list is a non-empty string. -/
theorem hexOfBytes_cons_ne_empty (b : Nat) (t : Bytes) : hexOfBytes (b :: t) ≠ "" := by
  intro h
  have hd : (hexOfBytes (b :: t)).data = [] := by rw [h]
  simp [hexOfBytes, hexOfByte] at hd

/-! ### C7: fingerprint determinism -/

/-- Claim C7: Fingerprint extraction is deterministic over certificate
content: a first blob that is a PEM encoding of DER bytes `D` and a first
blob that is a base64 encoding of `D` yield the identical fingerprint,
namely the lowercase hex of the 256-bit hash of `D`. -/
theorem c7_fingerprint_deterministic (L : Libs) (D : Bytes)
    (res₁ res₂ : MeasurementResult) (r₁ r₂ : List Blob)
    (h₁ : res₁.cert = Blob.pemOf D :: r₁) (h₂ : res₂.cert = Blob.b64Of D :: r₂) :
    fingerprintFromResult L res₁ = hexOfBytes (L.sha256 D) ∧
    fingerprintFromResult L res₂ = hexOfBytes (L.sha256 D) ∧
    fingerprintFromResult L res₁ = fingerprintFromResult L res₂ := by
  unfold fingerprintFromResult
  rw [h₁, h₂]
  simp [pemDecode, b64Decode]

/-- Witness for C7 at a concrete input. -/
theorem c7_fingerprint_deterministic_witness :
    fingerprintFromResult exLibs ⟨"a", 4, 0, [], none, [Blob.pemOf [171]], "", none⟩ =
      hexOfBytes (exLibs.sha256 [171]) ∧
    fingerprintFromResult exLibs ⟨"a", 4, 0, [], none, [Blob.b64Of [171]], "", none⟩ =
      hexOfBytes (exLibs.sha256 [171]) ∧
    fingerprintFromResult exLibs ⟨"a", 4, 0, [], none, [Blob.pemOf [171]], "", none⟩ =
      fingerprintFromResult exLibs ⟨"a", 4, 0, [], none, [Blob.b64Of [171]], "", none⟩ :=
  c7_fingerprint_deterministic exLibs [171] _ _ [] [] rfl rfl

/-! ### C9: empty chain defaults and tolerated version parse failure -/

/-- Claim C9: A certificate result with an empty chain gets fingerprint `""`
and issuer `"unknown"`; and when the protocol-version string fails to
parse, the version gauge sample is still emitted, with value 0. -/
theorem c9_empty_chain_and_version_default :
    (∀ (L : Libs) (res : MeasurementResult), res.cert = [] →
       fingerprintFromResult L res = "" ∧ issuerOrgFromResult L res = "unknown") ∧
    (∀ (L : Libs) (m : sslCertExporter) (res : MeasurementResult) (p : Probe),
       L.parseFloat res.ver = none →
       (sslCertExporter.Export L m res p).filter (fun s => s.metric == Metric.certVersion) =
         [⟨Metric.certVersion, 0, certLabelValues L m res p⟩]) := by
  constructor
  · intro L res hc
    constructor
    · unfold fingerprintFromResult
      rw [hc]
    · unfold issuerOrgFromResult
      rw [hc]
      rfl
  · intro L m res p hv
    unfold sslCertExporter.Export
    rw [hv]
    split <;> split <;> simp [List.filter, Metric.beq_eq_decide]

/-- Witness for C9 at a concrete input. -/
theorem c9_empty_chain_and_version_default_witness :
    (fingerprintFromResult exLibs ⟨"a", 4, 0, [], none, [], "bogus", none⟩ = "" ∧
     issuerOrgFromResult exLibs ⟨"a", 4, 0, [], none, [], "bogus", none⟩ = "unknown") ∧
    (sslCertExporter.Export exLibs ⟨"a"⟩ ⟨"a", 4, 0, [], none, [], "bogus", none⟩
        exProbe).filter (fun s => s.metric == Metric.certVersion) =
      [⟨Metric.certVersion, 0,
        certLabelValues exLibs ⟨"a"⟩ ⟨"a", 4, 0, [], none, [], "bogus", none⟩ exProbe⟩] :=
  ⟨c9_empty_chain_and_version_default.1 exLibs _ rfl,
   c9_empty_chain_and_version_default.2 exLibs ⟨"a"⟩ _ exProbe rfl⟩

/-! ### C8: issuer extraction -/

/-- A blob the loop skips leaves the issuer scan unchanged. -/
theorem issuerFromBlobs_skip (L : Libs) (b : Blob) (l : List Blob)
    (h : blobFails L b = true) : issuerFromBlobs L (b :: l) = issuerFromBlobs L l := by
  unfold blobFails at h
  simp only [issuerFromBlobs]
  cases hd : decodeBlob b with
  | none => rfl
  | some der =>
    rw [hd] at h
    have h' : (L.parseCertificate der).isNone = true := h
    cases hp : L.parseCertificate der with
    | none => simp [hp]
    | some c =>
      rw [hp] at h'
      simp at h'

/-- A prefix of skipped blobs leaves the issuer scan unchanged. -/
theorem issuerFromBlobs_skipAll (L : Libs) (pre l : List Blob)
    (h : ∀ b ∈ pre, blobFails L b = true) :
    issuerFromBlobs L (pre ++ l) = issuerFromBlobs L l := by
  induction pre with
  | nil => rfl
  | cons b t ih =>
    rw [List.cons_append, issuerFromBlobs_skip L b (t ++ l) (h b (by simp))]
    exact ih fun x hx => h x (by simp [hx])

/-- The issuer drawn from one certificate is never the empty string. -/
theorem issuerOfCertificate_ne_empty (cert : Certificate) :
    issuerOfCertificate cert ≠ "" := by
  unfold issuerOfCertificate
  split
  · split
    · assumption
    · split
      · assumption
      · decide
  · split
    · assumption
    · decide

/-- The issuer scan is never the empty string. -/
theorem issuerFromBlobs_ne_empty (L : Libs) (l : List Blob) :
    issuerFromBlobs L l ≠ "" := by
  induction l with
  | nil =>
    have hu : ("unknown" : String) ≠ "" := by decide
    exact fun hcon => hu hcon
  | cons b t ih =>
    simp only [issuerFromBlobs]
    cases hd : decodeBlob b with
    | none => simpa using ih
    | some der =>
      cases hp : L.parseCertificate der with
      | none => simpa [hp] using ih
      | some c => simpa [hp] using issuerOfCertificate_ne_empty c

/-- Claim C8: Issuer extraction resolves from the first parseable
certificate only, preferring its organization over its common name with
`"unknown"` as last resort; a chain with no parseable blob gives
`"unknown"`; the returned string is never empty. -/
theorem c8_issuer_extraction :
    (∀ (L : Libs) (res : MeasurementResult) (pre post : List Blob) (raw : Blob)
       (der : Bytes) (cert : Certificate),
       res.cert = pre ++ raw :: post →
       (∀ b ∈ pre, blobFails L b = true) →
       decodeBlob raw = some der →
       L.parseCertificate der = some cert →
       issuerOrgFromResult L res = issuerOfCertificate cert) ∧
    (∀ (cert : Certificate) (o0 : String) (t : List String),
       cert.issuerOrganization = o0 :: t → o0 ≠ "" →
       issuerOfCertificate cert = o0) ∧
    (∀ (cert : Certificate),
       (cert.issuerOrganization = [] ∨ ∃ t, cert.issuerOrganization = "" :: t) →
       cert.issuerCommonName ≠ "" →
       issuerOfCertificate cert = cert.issuerCommonName) ∧
    (∀ (cert : Certificate),
       (cert.issuerOrganization = [] ∨ ∃ t, cert.issuerOrganization = "" :: t) →
       cert.issuerCommonName = "" →
       issuerOfCertificate cert = "unknown") ∧
    (∀ (L : Libs) (res : MeasurementResult),
       (∀ b ∈ res.cert, blobFails L b = true) →
       issuerOrgFromResult L res = "unknown") ∧
    (∀ (L : Libs) (res : MeasurementResult), issuerOrgFromResult L res ≠ "") := by
  refine ⟨?_, ?_, ?_, ?_, ?_, ?_⟩
  · intro L res pre post raw der cert hc hpre hdec hparse
    unfold issuerOrgFromResult
    rw [hc, issuerFromBlobs_skipAll L pre _ hpre]
    unfold issuerFromBlobs
    simp [hdec, hparse]
  · intro cert o0 t ho hne
    unfold issuerOfCertificate
    rw [ho]
    simp [hne]
  · intro cert ho hcn
    unfold issuerOfCertificate
    rcases ho with h | ⟨t, h⟩ <;> rw [h] <;> simp [hcn]
  · intro cert ho hcn
    unfold issuerOfCertificate
    rcases ho with h | ⟨t, h⟩ <;> rw [h] <;> simp [hcn]
  · intro L res h
    unfold issuerOrgFromResult
    have := issuerFromBlobs_skipAll L res.cert [] h
    simpa using this
  · intro L res
    exact issuerFromBlobs_ne_empty L res.cert

/-- Witness for C8 at concrete inputs. -/
theorem c8_issuer_extraction_witness :
    issuerOrgFromResult exLibsParse
        ⟨"a", 4, 0, [], none, [Blob.garbage, Blob.b64Of [2]], "", none⟩ =
      issuerOfCertificate ⟨["Org"], "CN"⟩ ∧
    issuerOfCertificate ⟨["Org"], "CN"⟩ = "Org" ∧
    issuerOfCertificate ⟨[], "CN"⟩ = "CN" ∧
    issuerOfCertificate ⟨[""], ""⟩ = "unknown" ∧
    issuerOrgFromResult exLibs ⟨"a", 4, 0, [], none, [Blob.garbage], "", none⟩ =
      "unknown" ∧
    issuerOrgFromResult exLibs ⟨"a", 4, 0, [], none, [], "", none⟩ ≠ "" :=
  ⟨c8_issuer_extraction.1 exLibsParse _ [Blob.garbage] [] (Blob.b64Of [2]) [2]
      ⟨["Org"], "CN"⟩ rfl (by decide) rfl rfl,
   c8_issuer_extraction.2.1 ⟨["Org"], "CN"⟩ "Org" [] rfl (by decide),
   c8_issuer_extraction.2.2.1 ⟨[], "CN"⟩ (Or.inl rfl) (by decide),
   c8_issuer_extraction.2.2.2.1 ⟨[""], ""⟩ (Or.inr ⟨[], rfl⟩) rfl,
   c8_issuer_extraction.2.2.2.2.1 exLibs _ (by decide),
   c8_issuer_extraction.2.2.2.2.2 exLibs _⟩

/-! ### C10: fingerprint and issuer are computed independently -/

/-- Concrete black boxes for C10: constant 32-byte hash, nothing parses. -/
def exLibs32 : Libs :=
  ⟨fun _ => List.replicate 32 0, fun _ => none, fun _ => none⟩

/-- A certificate result whose single blob is base64 of unparseable bytes. -/
def exB64Res : MeasurementResult :=
  ⟨"a", 4, 0, [], none, [Blob.b64Of [1]], "", none⟩

/-- Claim C10: For a result whose first (and only) blob is not PEM but valid
base64 of bytes that do not parse as a certificate, the fingerprint is a
non-empty hash string while the issuer is `"unknown"`: a non-empty
fingerprint does not imply a parseable certificate. -/
theorem c10_fingerprint_issuer_independent (L : Libs)
    (h32 : ∀ d, (L.sha256 d).length = 32) (D : Bytes) (res : MeasurementResult)
    (hc : res.cert = [Blob.b64Of D]) (hp : L.parseCertificate D = none) :
    fingerprintFromResult L res ≠ "" ∧ issuerOrgFromResult L res = "unknown" := by
  constructor
  · unfold fingerprintFromResult
    rw [hc]
    simp only [pemDecode, b64Decode]
    obtain ⟨b, t, hbt⟩ : ∃ b t, L.sha256 D = b :: t := by
      cases hs : L.sha256 D with
      | nil =>
        exfalso
        have h := h32 D
        rw [hs] at h
        simp at h
      | cons b t => exact ⟨b, t, rfl⟩
    rw [hbt]
    exact hexOfBytes_cons_ne_empty b t
  · unfold issuerOrgFromResult
    rw [hc]
    simp [issuerFromBlobs, decodeBlob, pemDecode, b64Decode, hp]

/-- Witness for C10 at a concrete input. -/
theorem c10_fingerprint_issuer_independent_witness :
    fingerprintFromResult exLibs32 exB64Res ≠ "" ∧
    issuerOrgFromResult exLibs32 exB64Res = "unknown" :=
  c10_fingerprint_issuer_independent exLibs32
    (fun _ => by simp [exLibs32]) [1] exB64Res rfl rfl

/-! ### Lemmas about DNS answer samples -/

/-- Every sample from the answer switch is on the answer metric and
carries 11 label values. -/
theorem answerSample_mem (m : dnsExporter) (p : Probe) (d : String) (a : Int)
    (rr : RR) (smp : Sample) (h : smp ∈ answerSample m p d a rr) :
    smp.metric = Metric.dnsAnswer ∧ smp.labelValues.length = 11 := by
  cases rr with
  | A name ip =>
    simp [answerSample] at h
    subst h
    exact ⟨rfl, rfl⟩
  | AAAA name ip =>
    simp [answerSample] at h
    subst h
    exact ⟨rfl, rfl⟩
  | other => simp [answerSample] at h

/-- The reachability filter drops every answer sample. -/
theorem filter_reach_answers (m : dnsExporter) (p : Probe) (d : String) (a : Int)
    (l : List RR) :
    (l.flatMap (answerSample m p d a)).filter isDnsReach = [] := by
  induction l with
  | nil => rfl
  | cons rr t ih =>
    rw [List.flatMap_cons, List.filter_append, ih]
    cases rr <;> simp [answerSample, isDnsReach, List.filter, Metric.beq_eq_decide]

/-- The answer filter keeps every answer sample. -/
theorem filter_answer_answers (m : dnsExporter) (p : Probe) (d : String) (a : Int)
    (l : List RR) :
    (l.flatMap (answerSample m p d a)).filter isDnsAnswer =
      l.flatMap (answerSample m p d a) := by
  induction l with
  | nil => rfl
  | cons rr t ih =>
    rw [List.flatMap_cons, List.filter_append, ih]
    cases rr <;> simp [answerSample, isDnsAnswer, List.filter, Metric.beq_eq_decide]

/-- The emitted answer samples coincide with the spec's prescription. -/
theorem flatMap_answerSample_eq_spec (m : dnsExporter) (p : Probe) (d : String)
    (a : Int) (l : List RR) :
    l.flatMap (answerSample m p d a) = l.filterMap (specAnswerSample m.id p d a) := by
  induction l with
  | nil => rfl
  | cons rr t ih =>
    rw [List.flatMap_cons, ih]
    cases rr <;> rfl

/-- One spec answer sample per address record. -/
theorem filterMap_spec_length (mid : String) (p : Probe) (d : String) (a : Int)
    (l : List RR) :
    (l.filterMap (specAnswerSample mid p d a)).length = l.countP isAddressRR := by
  induction l with
  | nil => rfl
  | cons rr t ih =>
    cases rr <;> simp [specAnswerSample, isAddressRR, List.countP_cons, ih]

/-- Every spec answer sample has value 1. -/
theorem filterMap_spec_value (mid : String) (p : Probe) (d : String) (a : Int)
    (l : List RR) (smp : Sample)
    (h : smp ∈ l.filterMap (specAnswerSample mid p d a)) : smp.value = 1 := by
  induction l with
  | nil => simp at h
  | cons rr t ih =>
    cases rr with
    | A name ip =>
      simp only [List.filterMap_cons, specAnswerSample] at h
      rcases List.mem_cons.mp h with h | h
      · rw [h]
      · exact ih h
    | AAAA name ip =>
      simp only [List.filterMap_cons, specAnswerSample] at h
      rcases List.mem_cons.mp h with h | h
      · rw [h]
      · exact ih h
    | other =>
      simp only [List.filterMap_cons, specAnswerSample] at h
      exact ih h

/-! ### C1: reachability and rtt samples per target -/

/-- Claim C1: For every target of either translator, the samples on the
success/rtt metrics are exactly success=1 and rtt=input when the target's
round-trip time is positive, and success=0 alone otherwise: for the
certificate Export, for each non-error DNS sub-result, and for the DNS
single-target Export. -/
theorem c1_reachability_samples :
    (∀ (L : Libs) (m : sslCertExporter) (res : MeasurementResult) (p : Probe),
       (sslCertExporter.Export L m res p).filter isCertReach =
         if res.rt > 0 then
           [⟨Metric.certSuccess, 1, certLabelValues L m res p⟩,
            ⟨Metric.certRtt, res.rt, certLabelValues L m res p⟩]
         else [⟨Metric.certSuccess, 0, certLabelValues L m res p⟩]) ∧
    (∀ (m : dnsExporter) (p : Probe) (s : DnsResultset) (r : DnsResult),
       s.dnsError = false → s.result = some r →
       (subResultSamples m p s).filter isDnsReach =
         if r.rt > 0 then
           [⟨Metric.dnsSuccess, 1, dnsSubLabelValues m s p⟩,
            ⟨Metric.dnsRtt, r.rt, dnsSubLabelValues m s p⟩]
         else [⟨Metric.dnsSuccess, 0, dnsSubLabelValues m s p⟩]) ∧
    (∀ (m : dnsExporter) (res : MeasurementResult) (p : Probe) (rtt : ℚ),
       res.dnsResultsets = [] →
       rtt = (match res.dnsResult with | some r => r.rt | none => 0) →
       (dnsExporter.Export m res p).filter isDnsReach =
         if rtt > 0 then
           [⟨Metric.dnsSuccess, 1, dnsTopLabelValues m res p⟩,
            ⟨Metric.dnsRtt, rtt, dnsTopLabelValues m res p⟩]
         else [⟨Metric.dnsSuccess, 0, dnsTopLabelValues m res p⟩]) := by
  refine ⟨?_, ?_, ?_⟩
  · intro L m res p
    unfold sslCertExporter.Export
    by_cases hrt : res.rt > 0 <;>
      simp [hrt, List.filter, isCertReach, Metric.beq_eq_decide]
  · intro m p s r herr hres
    unfold subResultSamples
    rw [herr, hres]
    simp only [Bool.false_eq_true, if_false]
    cases habuf : r.abuf with
    | none =>
      by_cases hrt : r.rt > 0 <;>
        simp [hrt, List.filter, isDnsReach, Metric.beq_eq_decide]
    | some msg =>
      by_cases hrt : r.rt > 0 <;>
        simp [hrt, List.filter, List.filter_append, filter_reach_answers,
          isDnsReach, Metric.beq_eq_decide]
  · intro m res p rtt hrs hrtt
    unfold dnsExporter.Export
    rw [hrs]
    subst hrtt
    simp only [List.length_nil, gt_iff_lt, lt_self_iff_false, if_false]
    cases hdr : res.dnsResult with
    | none =>
      simp [hdr, List.filter, isDnsReach, Metric.beq_eq_decide]
    | some r =>
      cases habuf : r.abuf with
      | none =>
        by_cases hrt : r.rt > 0 <;>
          simp [hdr, habuf, hrt, List.filter, isDnsReach, Metric.beq_eq_decide]
      | some msg =>
        by_cases hrt : r.rt > 0 <;>
          simp [hdr, habuf, hrt, List.filter, List.filter_append,
            filter_reach_answers, isDnsReach, Metric.beq_eq_decide]

/-- Witness for C1 at concrete inputs. -/
theorem c1_reachability_samples_witness :
    (sslCertExporter.Export exLibs ⟨"a"⟩ ⟨"d", 4, 7, [], none, [], "", none⟩
        exProbe).filter isCertReach =
      [⟨Metric.certSuccess, 1,
        certLabelValues exLibs ⟨"a"⟩ ⟨"d", 4, 7, [], none, [], "", none⟩ exProbe⟩,
       ⟨Metric.certRtt, 7,
        certLabelValues exLibs ⟨"a"⟩ ⟨"d", 4, 7, [], none, [], "", none⟩ exProbe⟩] ∧
    (subResultSamples ⟨"12"⟩ exProbe exSub1).filter isDnsReach =
      [⟨Metric.dnsSuccess, 1, dnsSubLabelValues ⟨"12"⟩ exSub1 exProbe⟩,
       ⟨Metric.dnsRtt, 5, dnsSubLabelValues ⟨"12"⟩ exSub1 exProbe⟩] ∧
    (dnsExporter.Export ⟨"12"⟩ ⟨"d", 4, 0, [], none, [], "", none⟩
        exProbe).filter isDnsReach =
      [⟨Metric.dnsSuccess, 0,
        dnsTopLabelValues ⟨"12"⟩ ⟨"d", 4, 0, [], none, [], "", none⟩ exProbe⟩] := by
  refine ⟨?_, ?_, ?_⟩
  · have h := c1_reachability_samples.1 exLibs ⟨"a"⟩ ⟨"d", 4, 7, [], none, [], "", none⟩
      exProbe
    rw [h]
    norm_num
  · have h := c1_reachability_samples.2.1 ⟨"12"⟩ exProbe exSub1
      ⟨5, some ⟨[RR.A "example.org." "93.184.216.34"]⟩⟩ rfl rfl
    rw [h]
    norm_num
  · have h := c1_reachability_samples.2.2 ⟨"12"⟩ ⟨"d", 4, 0, [], none, [], "", none⟩
      exProbe 0 rfl rfl
    rw [h]
    norm_num

/-! ### C4: one answer sample per address record, in order -/

/-- Claim C4: For a target whose payload decodes with N address answer
records, the emitted answer samples are exactly the spec's prescription,
in payload order: their number equals the count of address records, each
has value 1, and rr_type/answer_ip/qname come from the record.  Stated for
a DNS sub-result and for the single-target shape. -/
theorem c4_answer_samples :
    (∀ (m : dnsExporter) (p : Probe) (s : DnsResultset) (r : DnsResult) (msg : DnsMsg),
       s.dnsError = false → s.result = some r → r.abuf = some msg →
       (subResultSamples m p s).filter isDnsAnswer =
         msg.answer.filterMap (specAnswerSample m.id p s.dstAddr s.af)) ∧
    (∀ (m : dnsExporter) (res : MeasurementResult) (p : Probe) (r : DnsResult)
       (msg : DnsMsg),
       res.dnsResultsets = [] → res.dnsResult = some r → r.abuf = some msg →
       (dnsExporter.Export m res p).filter isDnsAnswer =
         msg.answer.filterMap (specAnswerSample m.id p res.dstAddr res.af)) ∧
    (∀ (mid : String) (p : Probe) (d : String) (a : Int) (l : List RR),
       (l.filterMap (specAnswerSample mid p d a)).length = l.countP isAddressRR) ∧
    (∀ (mid : String) (p : Probe) (d : String) (a : Int) (l : List RR)
       (smp : Sample),
       smp ∈ l.filterMap (specAnswerSample mid p d a) → smp.value = 1) := by
  refine ⟨?_, ?_, filterMap_spec_length, filterMap_spec_value⟩
  · intro m p s r msg herr hres habuf
    unfold subResultSamples
    rw [herr]
    simp only [Bool.false_eq_true, if_false]
    rw [hres]
    simp only [habuf]
    rw [← flatMap_answerSample_eq_spec]
    by_cases hrt : r.rt > 0 <;>
      simp [hrt, List.filter_append, filter_answer_answers, List.filter,
        isDnsAnswer, Metric.beq_eq_decide]
  · intro m res p r msg hrs hdr habuf
    unfold dnsExporter.Export
    rw [hrs]
    simp only [List.length_nil, gt_iff_lt, lt_self_iff_false, if_false]
    rw [hdr]
    simp only [habuf]
    rw [← flatMap_answerSample_eq_spec]
    by_cases hrt : r.rt > 0 <;>
      simp [hrt, List.filter_append, filter_answer_answers, List.filter,
        isDnsAnswer, Metric.beq_eq_decide]

/-- Witness for C4 at concrete inputs. -/
theorem c4_answer_samples_witness :
    (subResultSamples ⟨"12"⟩ exProbe exSub1).filter isDnsAnswer =
      ([RR.A "example.org." "93.184.216.34"] : List RR).filterMap
        (specAnswerSample "12" exProbe "9.9.9.9" 4) ∧
    (dnsExporter.Export ⟨"12"⟩
        ⟨"d", 4, 0, [], some ⟨5, some ⟨[RR.A "q." "1.2.3.4"]⟩⟩, [], "", none⟩
        exProbe).filter isDnsAnswer =
      ([RR.A "q." "1.2.3.4"] : List RR).filterMap
        (specAnswerSample "12" exProbe "d" 4) ∧
    (([RR.A "q." "1.2.3.4", RR.other, RR.AAAA "q." "::1"] : List RR).filterMap
        (specAnswerSample "12" exProbe "d" 4)).length =
      ([RR.A "q." "1.2.3.4", RR.other, RR.AAAA "q." "::1"] : List RR).countP
        isAddressRR ∧
    (⟨Metric.dnsAnswer, 1,
      ["12", "7", "d", "100", "4", "DE", "50.1", "8.6", "q.", "A", "1.2.3.4"]⟩ :
        Sample).value = 1 := by
  refine ⟨c4_answer_samples.1 ⟨"12"⟩ exProbe exSub1
      ⟨5, some ⟨[RR.A "example.org." "93.184.216.34"]⟩⟩
      ⟨[RR.A "example.org." "93.184.216.34"]⟩ rfl rfl rfl,
    c4_answer_samples.2.1 ⟨"12"⟩ _ exProbe ⟨5, some ⟨[RR.A "q." "1.2.3.4"]⟩⟩
      ⟨[RR.A "q." "1.2.3.4"]⟩ rfl rfl rfl,
    c4_answer_samples.2.2.1 "12" exProbe "d" 4 _,
    c4_answer_samples.2.2.2 "12" exProbe "d" 4 [RR.A "q." "1.2.3.4"] _ ?_⟩
  simp only [specAnswerSample, exProbe, List.mem_filterMap]
  exact ⟨RR.A "q." "1.2.3.4", by simp, by decide⟩

/-! ### C5: error sub-results are isolated -/

/-- Claim C5: A sub-result with a decode error or a missing nested result
yields exactly one success=0 sample (so no answer samples), and a
sub-result's contribution is independent of its siblings: the export of a
resultset list splits around any element. -/
theorem c5_error_subresult_isolated :
    (∀ (m : dnsExporter) (p : Probe) (s : DnsResultset),
       s.dnsError = true ∨ s.result = none →
       subResultSamples m p s = [⟨Metric.dnsSuccess, 0, dnsSubLabelValues m s p⟩]) ∧
    (∀ (m : dnsExporter) (res : MeasurementResult) (p : Probe)
       (pre post : List (Option DnsResultset)) (s : DnsResultset),
       res.dnsResultsets = pre ++ some s :: post →
       dnsExporter.Export m res p =
         pre.flatMap (processResultset m p) ++ subResultSamples m p s ++
           post.flatMap (processResultset m p)) := by
  constructor
  · intro m p s h
    unfold subResultSamples
    rcases h with h | h
    · simp [h]
    · by_cases herr : s.dnsError <;> simp [herr, h]
  · intro m res p pre post s hc
    unfold dnsExporter.Export
    rw [hc]
    have hlen : (pre ++ some s :: post).length > 0 := by simp
    rw [if_pos hlen, List.flatMap_append, List.flatMap_cons]
    simp [processResultset, List.append_assoc]

/-- Witness for C5 at concrete inputs. -/
theorem c5_error_subresult_isolated_witness :
    subResultSamples ⟨"12"⟩ exProbe exSub2 =
      [⟨Metric.dnsSuccess, 0, dnsSubLabelValues ⟨"12"⟩ exSub2 exProbe⟩] ∧
    dnsExporter.Export ⟨"12"⟩ exScenarioRes exProbe =
      ([some exSub1] : List (Option DnsResultset)).flatMap
          (processResultset ⟨"12"⟩ exProbe) ++
        subResultSamples ⟨"12"⟩ exProbe exSub2 ++
        ([] : List (Option DnsResultset)).flatMap (processResultset ⟨"12"⟩ exProbe) :=
  ⟨c5_error_subresult_isolated.1 ⟨"12"⟩ exProbe exSub2 (Or.inl rfl),
   c5_error_subresult_isolated.2 ⟨"12"⟩ exScenarioRes exProbe [some exSub1] []
     exSub2 rfl⟩

/-! ### C2: Export always succeeds, success sample emission -/

/-- Every non-nil sub-result contributes at least one success sample. -/
theorem subResultSamples_has_success (m : dnsExporter) (p : Probe)
    (s : DnsResultset) :
    ∃ smp ∈ subResultSamples m p s, smp.metric = Metric.dnsSuccess := by
  unfold subResultSamples
  by_cases herr : s.dnsError
  · refine ⟨⟨Metric.dnsSuccess, 0, dnsSubLabelValues m s p⟩, ?_, rfl⟩
    simp [herr]
  · cases hres : s.result with
    | none =>
      refine ⟨⟨Metric.dnsSuccess, 0, dnsSubLabelValues m s p⟩, ?_, rfl⟩
      simp [herr, hres]
    | some r =>
      by_cases hrt : r.rt > 0
      · refine ⟨⟨Metric.dnsSuccess, 1, dnsSubLabelValues m s p⟩, ?_, rfl⟩
        simp [herr, hres, hrt]
      · refine ⟨⟨Metric.dnsSuccess, 0, dnsSubLabelValues m s p⟩, ?_, rfl⟩
        simp [herr, hres, hrt]

/-- Counterexample to C2 as stated: a DNS result whose resultset list is
non-empty but contains only nil entries makes `Export` emit no sample at
all, in particular no reachability sample. -/
theorem c2_counterexample :
    dnsExporter.Export ⟨"1"⟩ nilOnlyRes exProbe = [] ∧
    ¬∃ smp ∈ dnsExporter.Export ⟨"1"⟩ nilOnlyRes exProbe,
        smp.metric = Metric.dnsSuccess := by
  refine ⟨rfl, ?_⟩
  rintro ⟨smp, hmem, -⟩
  rw [show dnsExporter.Export ⟨"1"⟩ nilOnlyRes exProbe = [] from rfl] at hmem
  simp at hmem

/-- Claim C2 (amended): Every Export call is a total function of its input;
the certificate translator always emits at least one success sample, and
the DNS translator emits at least one success sample unless the result's
sub-result list is non-empty with every entry nil, in which case it emits
no samples at all. -/
theorem c2_export_success_sample :
    (∀ (L : Libs) (m : sslCertExporter) (res : MeasurementResult) (p : Probe),
       ∃ smp ∈ sslCertExporter.Export L m res p,
         smp.metric = Metric.certSuccess) ∧
    (∀ (m : dnsExporter) (res : MeasurementResult) (p : Probe),
       (res.dnsResultsets = [] ∨ ∃ s ∈ res.dnsResultsets, s.isSome) →
       ∃ smp ∈ dnsExporter.Export m res p, smp.metric = Metric.dnsSuccess) ∧
    (∀ (m : dnsExporter) (res : MeasurementResult) (p : Probe),
       res.dnsResultsets ≠ [] → (∀ s ∈ res.dnsResultsets, s = none) →
       dnsExporter.Export m res p = []) := by
  refine ⟨?_, ?_, ?_⟩
  · intro L m res p
    unfold sslCertExporter.Export
    by_cases hrt : res.rt > 0
    · exact ⟨⟨Metric.certSuccess, 1, certLabelValues L m res p⟩, by simp [hrt], rfl⟩
    · exact ⟨⟨Metric.certSuccess, 0, certLabelValues L m res p⟩, by simp [hrt], rfl⟩
  · intro m res p h
    rcases h with hnil | ⟨s?, hsmem, hsome⟩
    · unfold dnsExporter.Export
      rw [hnil]
      simp only [List.length_nil, gt_iff_lt, lt_self_iff_false, if_false]
      by_cases hrt :
          (0 : ℚ) < (match res.dnsResult with | some r => r.rt | none => 0)
      · exact ⟨⟨Metric.dnsSuccess, 1, dnsTopLabelValues m res p⟩, by simp [hrt], rfl⟩
      · exact ⟨⟨Metric.dnsSuccess, 0, dnsTopLabelValues m res p⟩, by simp [hrt], rfl⟩
    · obtain ⟨s, rfl⟩ := Option.isSome_iff_exists.mp hsome
      unfold dnsExporter.Export
      have hlen : res.dnsResultsets.length > 0 :=
        List.length_pos.mpr (by rintro hcon; rw [hcon] at hsmem; simp at hsmem)
      rw [if_pos hlen]
      obtain ⟨smp, hmem, hsucc⟩ := subResultSamples_has_success m p s
      exact ⟨smp, List.mem_flatMap.mpr ⟨some s, hsmem, hmem⟩, hsucc⟩
  · intro m res p hne hall
    unfold dnsExporter.Export
    rw [if_pos (List.length_pos.mpr hne), List.flatMap_eq_nil_iff]
    intro s hs
    rw [hall s hs]
    rfl

/-- Witness for C2 (amended) at concrete inputs. -/
theorem c2_export_success_sample_witness :
    (∃ smp ∈ sslCertExporter.Export exLibs ⟨"a"⟩ nilOnlyRes exProbe,
        smp.metric = Metric.certSuccess) ∧
    (∃ smp ∈ dnsExporter.Export ⟨"1"⟩ exScenarioRes exProbe,
        smp.metric = Metric.dnsSuccess) ∧
    dnsExporter.Export ⟨"1"⟩ nilOnlyRes exProbe = [] :=
  ⟨c2_export_success_sample.1 exLibs ⟨"a"⟩ nilOnlyRes exProbe,
   c2_export_success_sample.2.1 ⟨"1"⟩ exScenarioRes exProbe
     (Or.inr ⟨some exSub1, by simp [exScenarioRes], rfl⟩),
   c2_export_success_sample.2.2 ⟨"1"⟩ nilOnlyRes exProbe (by simp [nilOnlyRes])
     (by simp [nilOnlyRes])⟩

/-! ### C3: the two-sub-result scenario -/

/-- Counterexample to C3 as stated: in the two-sub-result scenario the
emitted sequence is NOT success, rtt, answer for the first sub-result —
the answer sample comes first. -/
theorem c3_counterexample :
    dnsExporter.Export ⟨"12"⟩ exScenarioRes exProbe ≠
      [⟨Metric.dnsSuccess, 1, dnsSubLabelValues ⟨"12"⟩ exSub1 exProbe⟩,
       ⟨Metric.dnsRtt, 5, dnsSubLabelValues ⟨"12"⟩ exSub1 exProbe⟩,
       ⟨Metric.dnsAnswer, 1,
        ["12", "7", "9.9.9.9", "100", "4", "DE", "50.1", "8.6", "example.org.",
         "A", "93.184.216.34"]⟩,
       ⟨Metric.dnsSuccess, 0, dnsSubLabelValues ⟨"12"⟩ exSub2 exProbe⟩] := by
  decide

/-- Claim C3 (amended): Two sub-results, the first reachable (rtt = x > 0)
with one A-record answer "93.184.216.34", the second unreachable with a
decode error: the overall output is the answer sample, then success=1 and
rtt=x, for the first sub-result, followed by success=0 for the second;
each sample carries only its own sub-result's label values. -/
theorem c3_scenario_order (m : dnsExporter) (p : Probe) (x : ℚ)
    (s₁ s₂ : DnsResultset) (name : String) (r₁ : DnsResult)
    (res : MeasurementResult) (hx : x > 0)
    (h₁ : s₁.dnsError = false) (hr₁ : s₁.result = some r₁) (hrt : r₁.rt = x)
    (habuf : r₁.abuf = some ⟨[RR.A name "93.184.216.34"]⟩)
    (h₂ : s₂.dnsError = true)
    (hres : res.dnsResultsets = [some s₁, some s₂]) :
    dnsExporter.Export m res p =
      [⟨Metric.dnsAnswer, 1,
        [m.id, toString p.id, s₁.dstAddr, toString (p.asnForIPVersion s₁.af),
         toString s₁.af, p.countryCode, p.latitude, p.longitude, name, "A",
         "93.184.216.34"]⟩,
       ⟨Metric.dnsSuccess, 1, dnsSubLabelValues m s₁ p⟩,
       ⟨Metric.dnsRtt, x, dnsSubLabelValues m s₁ p⟩,
       ⟨Metric.dnsSuccess, 0, dnsSubLabelValues m s₂ p⟩] := by
  unfold dnsExporter.Export
  rw [hres]
  simp only [List.length_cons, gt_iff_lt, Nat.zero_lt_succ, if_true,
    List.flatMap_cons, List.flatMap_nil, processResultset]
  unfold subResultSamples
  rw [h₁, h₂, hr₁]
  simp only [Bool.false_eq_true, if_false, if_true, habuf, hrt, if_pos hx,
    List.flatMap_cons, List.flatMap_nil, answerSample]
  simp

/-- Witness for C3 (amended) at the concrete scenario. -/
theorem c3_scenario_order_witness :
    dnsExporter.Export ⟨"12"⟩ exScenarioRes exProbe =
      [⟨Metric.dnsAnswer, 1,
        ["12", toString (7 : Int), exSub1.dstAddr,
         toString (exProbe.asnForIPVersion exSub1.af), toString exSub1.af,
         "DE", "50.1", "8.6", "example.org.", "A", "93.184.216.34"]⟩,
       ⟨Metric.dnsSuccess, 1, dnsSubLabelValues ⟨"12"⟩ exSub1 exProbe⟩,
       ⟨Metric.dnsRtt, 5, dnsSubLabelValues ⟨"12"⟩ exSub1 exProbe⟩,
       ⟨Metric.dnsSuccess, 0, dnsSubLabelValues ⟨"12"⟩ exSub2 exProbe⟩] :=
  c3_scenario_order ⟨"12"⟩ exProbe 5 exSub1 exSub2 "example.org."
    ⟨5, some ⟨[RR.A "example.org." "93.184.216.34"]⟩⟩ exScenarioRes
    (by norm_num) rfl rfl rfl rfl rfl rfl

/-! ### C6: fixed label schema per metric -/

/-- Label count for every sample of one sub-result: 11 for an answer
sample, 8 otherwise. -/
theorem subResultSamples_labels (m : dnsExporter) (p : Probe) (s : DnsResultset)
    (smp : Sample) (h : smp ∈ subResultSamples m p s) :
    smp.labelValues.length = if smp.metric = Metric.dnsAnswer then 11 else 8 := by
  simp only [subResultSamples] at h
  split at h
  · simp at h
    subst h
    simp [dnsSubLabelValues]
  · split at h
    · simp at h
      subst h
      simp [dnsSubLabelValues]
    · split at h <;> rcases List.mem_append.mp h with h | h
      · split at h
        · obtain ⟨rr, -, hmem⟩ := List.mem_flatMap.mp h
          obtain ⟨hmet, hlen⟩ := answerSample_mem _ _ _ _ _ _ hmem
          simp [hmet, hlen]
        · simp at h
      · simp at h
        rcases h with h | h <;> (subst h; simp [dnsSubLabelValues])
      · split at h
        · obtain ⟨rr, -, hmem⟩ := List.mem_flatMap.mp h
          obtain ⟨hmet, hlen⟩ := answerSample_mem _ _ _ _ _ _ hmem
          simp [hmet, hlen]
        · simp at h
      · simp at h
        subst h
        simp [dnsSubLabelValues]

/-- Claim C6: Every emitted sample's label-value list has exactly the length
of the schema declared for its metric at startup: 10 for every certificate
metric (all five samples even share one list), 8 for dns success/rtt, 11
for dns answer. -/
theorem c6_label_schema :
    certLabels.length = 10 ∧ dnsLabels.length = 8 ∧ dnsAnswerLabels.length = 11 ∧
    (∀ (L : Libs) (m : sslCertExporter) (res : MeasurementResult) (p : Probe),
       ∀ smp ∈ sslCertExporter.Export L m res p,
         smp.labelValues = certLabelValues L m res p ∧
         smp.labelValues.length = certLabels.length) ∧
    (∀ (m : dnsExporter) (res : MeasurementResult) (p : Probe),
       ∀ smp ∈ dnsExporter.Export m res p,
         smp.labelValues.length =
           if smp.metric = Metric.dnsAnswer then dnsAnswerLabels.length
           else dnsLabels.length) := by
  refine ⟨rfl, rfl, rfl, ?_, ?_⟩
  · intro L m res p smp h
    simp only [sslCertExporter.Export] at h
    rcases List.mem_append.mp h with h | h
    · simp at h
      rcases h with h | h | h <;> (subst h; exact ⟨rfl, rfl⟩)
    · split at h
      · simp at h
        rcases h with h | h <;> (subst h; exact ⟨rfl, rfl⟩)
      · simp at h
        subst h
        exact ⟨rfl, rfl⟩
  · intro m res p smp h
    simp only [dnsExporter.Export] at h
    split at h
    · obtain ⟨s?, -, hmem⟩ := List.mem_flatMap.mp h
      cases s? with
      | none => simp [processResultset] at hmem
      | some s =>
        have hl := subResultSamples_labels m p s smp hmem
        simpa [dnsAnswerLabels, dnsLabels] using hl
    · split at h <;> rcases List.mem_append.mp h with h | h
      · split at h
        · split at h
          · obtain ⟨rr, -, hmem⟩ := List.mem_flatMap.mp h
            obtain ⟨hmet, hlen⟩ := answerSample_mem _ _ _ _ _ _ hmem
            simp [hmet, hlen, dnsAnswerLabels]
          · simp at h
        · simp at h
      · simp at h
        rcases h with h | h <;> (subst h; simp [dnsTopLabelValues, dnsLabels])
      · split at h
        · split at h
          · obtain ⟨rr, -, hmem⟩ := List.mem_flatMap.mp h
            obtain ⟨hmet, hlen⟩ := answerSample_mem _ _ _ _ _ _ hmem
            simp [hmet, hlen, dnsAnswerLabels]
          · simp at h
        · simp at h
      · simp at h
        subst h
        simp [dnsTopLabelValues, dnsLabels]

/-- Witness for C6 at concrete inputs. -/
theorem c6_label_schema_witness :
    certLabels.length = 10 ∧
    ((⟨Metric.certSuccess, 0,
        certLabelValues exLibs ⟨"a"⟩ nilOnlyRes exProbe⟩ : Sample).labelValues =
      certLabelValues exLibs ⟨"a"⟩ nilOnlyRes exProbe ∧
     (⟨Metric.certSuccess, 0,
        certLabelValues exLibs ⟨"a"⟩ nilOnlyRes exProbe⟩ :
          Sample).labelValues.length = certLabels.length) ∧
    (⟨Metric.dnsSuccess, 0,
       dnsSubLabelValues ⟨"12"⟩ exSub2 exProbe⟩ : Sample).labelValues.length =
      (if (Metric.dnsSuccess : Metric) = Metric.dnsAnswer then
        dnsAnswerLabels.length else dnsLabels.length) :=
  ⟨c6_label_schema.1,
   c6_label_schema.2.2.2.1 exLibs ⟨"a"⟩ nilOnlyRes exProbe _
     (by simp [sslCertExporter.Export, nilOnlyRes]),
   c6_label_schema.2.2.2.2 ⟨"12"⟩ exScenarioRes exProbe _
     (by simp [dnsExporter.Export, exScenarioRes, processResultset]
         exact Or.inr (by simp [subResultSamples, exSub2]))⟩

end AtlasExporter
